import Mathlib

/-!
Verification development for the admin room-form dialog component
(src/src/components/admin/room-form-dialog.tsx).

The component is embedded shallowly:
* the data records (`Room`, `Location`, `RoomFormValues`) are Lean structures;
* the zod validation schema `roomFormSchema` is a function to `Except`;
* the submit handler `onSubmit` is a pure function from its environment
  (optional room, location list, and the outcomes of the two external
  persistence calls) to the list of observable events it performs, in order;
* the open-transition effect that reseeds the form is a pure function on a
  dialog state.
-/

namespace RoomFormDialog

/-- The Location record: { id, name }. Supplied to the dialog as a list. -/
structure Location where
  id : String
  name : String
deriving DecidableEq, Repr

/-- Modelled from the spec: the Room record type comes from the module
called at lib slash types, which is not among the provided sources; the
spec data model gives it the fields { id, name, locationId }. -/
structure Room where
  id : String
  name : String
  locationId : String
deriving DecidableEq, Repr

/-- The form values validated by the schema: { name, locationId }. -/
structure RoomFormValues where
  name : String
  locationId : String
deriving DecidableEq, Repr

/-- Field-level error messages produced by the validation schema. -/
structure FieldErrors where
  nameMsg : Option String
  locationIdMsg : Option String
deriving DecidableEq, Repr

/-- Embedding of the zod schema (lines 18-21 of the source): name is a
string of minimum length 3 with the length message, locationId a string of
minimum length 1 with the required message. -/
def roomFormSchema (v : RoomFormValues) : Except FieldErrors RoomFormValues :=
  let nameMsg : Option String :=
    if v.name.length < 3 then some "Room name must be at least 3 characters long." else none
  let locMsg : Option String :=
    if v.locationId.length < 1 then some "Location is required." else none
  match nameMsg, locMsg with
  | none, none => Except.ok v
  | n, m => Except.error ⟨n, m⟩

/-- Toast severity: the component passes variant destructive on failures
and the default variant on successes. -/
inductive ToastVariant where
  | default
  | destructive
deriving DecidableEq, Repr

/-- A toast notification: title, description, variant. -/
structure Toast where
  title : String
  description : String
  variant : ToastVariant
deriving DecidableEq, Repr

/-- Outcome of an awaited external call: it returns a value or throws. -/
inductive ExtOutcome (α : Type) where
  | returns (a : α)
  | throws
deriving DecidableEq, Repr

/-- A persistence invocation made by the handler: updateRoom with a full
Room record, or addRoom with (name, locationId). -/
inductive PersistCall where
  | update (r : Room)
  | add (name : String) (locationId : String)
deriving DecidableEq, Repr

/-- An observable event performed by the component, in program order. -/
inductive Event where
  | toast (t : Toast)
  | close (changed : Bool)
  | persist (c : PersistCall)
  | setSubmitting (b : Bool)
  | logError
deriving DecidableEq, Repr

/-- The environment of one submit-handler run: the optional room prop, the
location list, and the outcome each external call would produce if invoked. -/
structure SubmitEnv where
  room : Option Room
  locations : List Location
  updateResult : ExtOutcome Bool
  addResult : ExtOutcome (Option Room)

/-- Embedding of the onSubmit handler (lines 55-85 of the source) as the
list of events it performs, in order.  The early return on an empty
location list emits one toast and nothing else; otherwise the submitting
flag is set, the persistence call corresponding to the mode is invoked,
its result (or exception) is turned into a toast and possibly a close,
and the finally block resets the submitting flag. -/
def onSubmit (env : SubmitEnv) (data : RoomFormValues) : List Event :=
  if env.locations.length = 0 then
    [Event.toast ⟨"Error", "No locations available. Please add a location first.", ToastVariant.destructive⟩]
  else
    Event.setSubmitting true ::
    (match env.room with
     | some room =>
        Event.persist (PersistCall.update { room with name := data.name, locationId := data.locationId }) ::
        (match env.updateResult with
         | ExtOutcome.returns success =>
            if success then
              [Event.toast ⟨"Room Updated", "The room has been successfully updated.", ToastVariant.default⟩,
               Event.close true]
            else
              [Event.toast ⟨"Error", "Failed to update room. Please try again.", ToastVariant.destructive⟩]
         | ExtOutcome.throws =>
            [Event.toast ⟨"Error", "An unexpected error occurred while saving the room.", ToastVariant.destructive⟩,
             Event.logError])
     | none =>
        Event.persist (PersistCall.add data.name data.locationId) ::
        (match env.addResult with
         | ExtOutcome.returns newRoom =>
            if newRoom.isSome then
              [Event.toast ⟨"Room Added", "The new room has been successfully added.", ToastVariant.default⟩,
               Event.close true]
            else
              [Event.toast ⟨"Error", "Failed to add room. Please try again.", ToastVariant.destructive⟩]
         | ExtOutcome.throws =>
            [Event.toast ⟨"Error", "An unexpected error occurred while saving the room.", ToastVariant.destructive⟩,
             Event.logError])) ++
    [Event.setSubmitting false]

/-- The persistence calls appearing in a trace, in order. -/
def persistCalls (tr : List Event) : List PersistCall :=
  tr.filterMap fun e => match e with | Event.persist c => some c | _ => none

/-- The onClose invocations appearing in a trace, in order. -/
def closesOf (tr : List Event) : List Bool :=
  tr.filterMap fun e => match e with | Event.close b => some b | _ => none

/-- The toasts appearing in a trace, in order. -/
def toastsOf (tr : List Event) : List Toast :=
  tr.filterMap fun e => match e with | Event.toast t => some t | _ => none

/-- Whether the run ends in success: nonempty location list and the invoked
persistence call reports success (truthy boolean for update, non-null room
for add). -/
def submitSucceeds (env : SubmitEnv) : Bool :=
  !env.locations.isEmpty &&
  (match env.room with
   | some _ => match env.updateResult with
     | ExtOutcome.returns b => b
     | ExtOutcome.throws => false
   | none => match env.addResult with
     | ExtOutcome.returns r => r.isSome
     | ExtOutcome.throws => false)

/-- Scans a trace keeping track of the submitting flag (second argument),
returning true when some close event happens while the flag is true. -/
def anyCloseWhileSubmitting : List Event → Bool → Bool
  | [], _ => false
  | Event.toast _ :: rest, flag => anyCloseWhileSubmitting rest flag
  | Event.close _ :: rest, flag => flag || anyCloseWhileSubmitting rest flag
  | Event.persist _ :: rest, flag => anyCloseWhileSubmitting rest flag
  | Event.setSubmitting b :: rest, _ => anyCloseWhileSubmitting rest b
  | Event.logError :: rest, flag => anyCloseWhileSubmitting rest flag

/-- True when some close event occurs while the submitting flag (initially
false) is set. -/
def existsCloseWhileSubmitting (tr : List Event) : Bool :=
  anyCloseWhileSubmitting tr false

/-- True when a close event occurs before any persistence call was issued. -/
def anyCloseBeforePersist : List Event → Bool
  | [] => false
  | Event.persist _ :: _ => false
  | Event.close _ :: _ => true
  | Event.toast _ :: rest => anyCloseBeforePersist rest
  | Event.setSubmitting _ :: rest => anyCloseBeforePersist rest
  | Event.logError :: rest => anyCloseBeforePersist rest

/-- Modelled from the spec: the form library submit wrapper (handleSubmit
with the zod resolver, not among the provided sources) invokes the submit
callback only when the schema accepts the values; on violation submission
is blocked and field messages are surfaced instead. -/
def handleSubmit (submit : RoomFormValues → List Event) (v : RoomFormValues) : List Event :=
  match roomFormSchema v with
  | Except.ok d => submit d
  | Except.error _ => []

/-- JavaScript or-else on strings: the empty string is the only falsy
string, so a || b keeps a unless it is empty. -/
def orElseStr (a b : String) : String :=
  if a = "" then b else a

/-- The transient form values held while the dialog is open. -/
structure FormState where
  name : String
  locationId : String
deriving DecidableEq, Repr

/-- The dialog state the claims speak about: the form values and the
isSubmitting flag. -/
structure DialogState where
  values : FormState
  isSubmitting : Bool
deriving DecidableEq, Repr

/-- The seed values computed on open (lines 39-42 and 47-50 of the source):
name is the room name or empty, locationId is the room locationId, or else
the supplied default, or else the id of the first location, or else empty,
each fallback taken when the previous value is absent or empty. -/
def formReset (room : Option Room) (locations : List Location)
    (defaultLocationId : Option String) : FormState :=
  { name := orElseStr (match room with | some r => r.name | none => "") ""
    locationId :=
      orElseStr (match room with | some r => r.locationId | none => "")
        (orElseStr (match defaultLocationId with | some s => s | none => "")
          (match locations with | [] => "" | loc :: _ => loc.id)) }

/-- The state on first mount (lines 35-43 of the source): the form defaults
are the seed values and isSubmitting starts false. -/
def initialState (room : Option Room) (locations : List Location)
    (defaultLocationId : Option String) : DialogState :=
  { values := formReset room locations defaultLocationId, isSubmitting := false }

/-- The effect run on every transition to open (lines 45-53 of the source):
the form is reset to the seed values and the submitting flag is set to
false; the previous state is not consulted. -/
def openTransition (prev : DialogState) (room : Option Room)
    (locations : List Location) (defaultLocationId : Option String) : DialogState :=
  { values := formReset room locations defaultLocationId, isSubmitting := false }

/-- The ids of the supplied locations, the only values the select control
renders as options (line 110-112 of the source). -/
def locationIds (locations : List Location) : List String :=
  locations.map Location.id

/-- The select control storing a chosen option into the form values. -/
def selectLocation (st : DialogState) (value : String) : DialogState :=
  { st with values := { st.values with locationId := value } }

/-- A sequence of selections applied to a dialog state. -/
def runSelections (st : DialogState) (picks : List String) : DialogState :=
  picks.foldl selectLocation st

/-- A user action while the dialog is open: a submit attempt (with the
entered values and the outcomes the external calls would produce), the
cancel button (line 135 of the source), or the dismiss affordance routed
through onOpenChange (line 90 of the source). -/
inductive UserAction where
  | submit (data : RoomFormValues) (upd : ExtOutcome Bool) (add : ExtOutcome (Option Room))
  | cancel
  | dismiss

/-- The events one user action performs. -/
def actionEvents (room : Option Room) (locations : List Location) : UserAction → List Event
  | UserAction.submit data upd add => handleSubmit (onSubmit ⟨room, locations, upd, add⟩) data
  | UserAction.cancel => [Event.close false]
  | UserAction.dismiss => [Event.close false]

/-- An open session: actions run in order until one calls onClose, at which
point the parent closes the dialog and the remaining actions never happen. -/
def sessionTrace (room : Option Room) (locations : List Location) : List UserAction → List Event
  | [] => []
  | a :: rest =>
    let tr := actionEvents room locations a
    if (closesOf tr).isEmpty then tr ++ sessionTrace room locations rest else tr

/-- Whether the session ends (some action calls onClose). -/
def sessionEnds (room : Option Room) (locations : List Location) : List UserAction → Bool
  | [] => false
  | a :: rest =>
    !(closesOf (actionEvents room locations a)).isEmpty || sessionEnds room locations rest

/-! ## Helper lemmas -/

/-- A string has length below one exactly when it is the empty string. -/
lemma length_lt_one_iff (s : String) : s.length < 1 ↔ s = "" := by
  rw [Nat.lt_one_iff]
  constructor
  · intro h
    rcases s with ⟨data⟩
    have hd : data = [] := List.length_eq_zero.mp h
    subst hd; rfl
  · intro h; subst h; rfl

/-! ## Claim theorems -/

/-- C1: in edit mode (a room prop is present), with a nonempty location
list and the update call returning a boolean, the handler performs exactly
one persistence call, namely updateRoom on the merged record (original id,
form name, form locationId); on a truthy result it emits the success toast
and calls onClose true, on a falsy result it emits the failure toast and
does not call onClose. -/
theorem edit_submit_correct (r : Room) (l : Location) (ls : List Location) (b : Bool)
    (a : ExtOutcome (Option Room)) (d : RoomFormValues) :
    persistCalls (onSubmit ⟨some r, l :: ls, ExtOutcome.returns b, a⟩ d)
      = [PersistCall.update ⟨r.id, d.name, d.locationId⟩]
    ∧ toastsOf (onSubmit ⟨some r, l :: ls, ExtOutcome.returns b, a⟩ d)
      = (if b then [⟨"Room Updated", "The room has been successfully updated.", ToastVariant.default⟩]
         else [⟨"Error", "Failed to update room. Please try again.", ToastVariant.destructive⟩])
    ∧ closesOf (onSubmit ⟨some r, l :: ls, ExtOutcome.returns b, a⟩ d)
      = (if b then [true] else []) := by
  cases b <;> simp [onSubmit, persistCalls, toastsOf, closesOf]

/-- C2: in create mode (no room prop), with a nonempty location list and
the add call returning a value, the handler performs exactly one
persistence call, namely addRoom with the form name and locationId; on a
non-null result it emits the success toast and calls onClose true, on a
null result it emits the failure toast and does not call onClose. -/
theorem create_submit_correct (l : Location) (ls : List Location) (res : Option Room)
    (u : ExtOutcome Bool) (d : RoomFormValues) :
    persistCalls (onSubmit ⟨none, l :: ls, u, ExtOutcome.returns res⟩ d)
      = [PersistCall.add d.name d.locationId]
    ∧ toastsOf (onSubmit ⟨none, l :: ls, u, ExtOutcome.returns res⟩ d)
      = (if res.isSome then [⟨"Room Added", "The new room has been successfully added.", ToastVariant.default⟩]
         else [⟨"Error", "Failed to add room. Please try again.", ToastVariant.destructive⟩])
    ∧ closesOf (onSubmit ⟨none, l :: ls, u, ExtOutcome.returns res⟩ d)
      = (if res.isSome then [true] else []) := by
  cases res <;> simp [onSubmit, persistCalls, toastsOf, closesOf]

/-- C4: when the supplied location list is empty, a submit attempt performs
exactly one event: the destructive toast whose description says no
locations are available; no persistence call is made, onClose is not
called, and the submitting flag is never set. -/
theorem empty_locations_reject (ro : Option Room) (u : ExtOutcome Bool)
    (a : ExtOutcome (Option Room)) (d : RoomFormValues) :
    onSubmit ⟨ro, [], u, a⟩ d
      = [Event.toast ⟨"Error", "No locations available. Please add a location first.", ToastVariant.destructive⟩] := by
  simp [onSubmit]

/-- C5: when the invoked persistence call throws, in either mode, the
handler catches the exception: the trace is exactly the submitting flag
set, the persistence call, the generic failure toast, the error log, and
the submitting flag reset; in particular onClose is never called and the
state returns to idle. -/
theorem thrown_error_recovers (r : Room) (l : Location) (ls : List Location)
    (u : ExtOutcome Bool) (a : ExtOutcome (Option Room)) (d : RoomFormValues) :
    onSubmit ⟨some r, l :: ls, ExtOutcome.throws, a⟩ d
      = [Event.setSubmitting true,
         Event.persist (PersistCall.update ⟨r.id, d.name, d.locationId⟩),
         Event.toast ⟨"Error", "An unexpected error occurred while saving the room.", ToastVariant.destructive⟩,
         Event.logError,
         Event.setSubmitting false]
    ∧ onSubmit ⟨none, l :: ls, u, ExtOutcome.throws⟩ d
      = [Event.setSubmitting true,
         Event.persist (PersistCall.add d.name d.locationId),
         Event.toast ⟨"Error", "An unexpected error occurred while saving the room.", ToastVariant.destructive⟩,
         Event.logError,
         Event.setSubmitting false] := by
  constructor <;> simp [onSubmit]

/-- C9: for every edit-mode submission, whatever the outcome of the call,
the record passed to updateRoom is the original room with only name and
locationId overwritten; every other field of the record, in particular its
id, is preserved. -/
theorem update_preserves_frame (r : Room) (l : Location) (ls : List Location)
    (u : ExtOutcome Bool) (a : ExtOutcome (Option Room)) (d : RoomFormValues) :
    persistCalls (onSubmit ⟨some r, l :: ls, u, a⟩ d)
      = [PersistCall.update { r with name := d.name, locationId := d.locationId }]
    ∧ ({ r with name := d.name, locationId := d.locationId } : Room).id = r.id := by
  cases u with
  | returns b => cases b <;> simp [onSubmit, persistCalls]
  | throws => simp [onSubmit, persistCalls]

/-- C10: every run of the submit handler emits exactly one toast, and its
variant is the default (success) variant exactly when the run succeeds,
the destructive (error) variant otherwise — covering the empty-list
rejection, the falsy result, and the thrown exception. -/
theorem one_toast_per_submit (env : SubmitEnv) (d : RoomFormValues) :
    (toastsOf (onSubmit env d)).length = 1
    ∧ (toastsOf (onSubmit env d)).map Toast.variant
      = [if submitSucceeds env then ToastVariant.default else ToastVariant.destructive] := by
  rcases env with ⟨ro, locs, u, a⟩
  cases locs with
  | nil => simp [onSubmit, toastsOf, submitSucceeds]
  | cons l ls =>
    cases ro with
    | none =>
      cases a with
      | returns res => cases res <;> simp [onSubmit, toastsOf, submitSucceeds]
      | throws => simp [onSubmit, toastsOf, submitSucceeds]
    | some r =>
      cases u with
      | returns b => cases b <;> simp [onSubmit, toastsOf, submitSucceeds]
      | throws => simp [onSubmit, toastsOf, submitSucceeds]

/-- C6: the validation schema accepts a candidate exactly when the name
has length at least 3 and the locationId is a non-empty string; otherwise
it reports the length message on name and the required message on
locationId, field by field, and the submit wrapper never invokes the
submit callback on a rejected candidate. -/
theorem schema_validation_correct (v : RoomFormValues) (f : RoomFormValues → List Event) :
    roomFormSchema v =
      (if 3 ≤ v.name.length ∧ v.locationId ≠ "" then Except.ok v
       else Except.error
         ⟨if v.name.length < 3 then some "Room name must be at least 3 characters long." else none,
          if v.locationId.length < 1 then some "Location is required." else none⟩)
    ∧ handleSubmit f v = (if 3 ≤ v.name.length ∧ v.locationId ≠ "" then f v else []) := by
  have hloc : v.locationId.length < 1 ↔ v.locationId = "" := length_lt_one_iff v.locationId
  by_cases h1 : v.name.length < 3 <;> by_cases h2 : v.locationId.length < 1
  · have hcond : ¬ (3 ≤ v.name.length ∧ v.locationId ≠ "") := fun hc => absurd hc.1 (by omega)
    simp [roomFormSchema, handleSubmit, h1, h2, hcond]
  · have hcond : ¬ (3 ≤ v.name.length ∧ v.locationId ≠ "") := fun hc => absurd hc.1 (by omega)
    simp [roomFormSchema, handleSubmit, h1, h2, hcond]
  · have hcond : ¬ (3 ≤ v.name.length ∧ v.locationId ≠ "") := fun hc => hc.2 (hloc.mp h2)
    simp [roomFormSchema, handleSubmit, h1, h2, hcond]
  · have hcond : 3 ≤ v.name.length ∧ v.locationId ≠ "" :=
      ⟨by omega, fun h => h2 (hloc.mpr h)⟩
    simp [roomFormSchema, handleSubmit, h1, h2, hcond]

/-- C7: on every transition to open, for every combination of room,
location list and default location id, the form is reseeded: the
submitting flag is false, the name is the room name or empty, the
locationId is the room locationId when non-empty, else the supplied
default when non-empty, else the first location id when the list is
non-empty, else empty; and the result never depends on the previous
dialog state, so edits from an earlier session cannot leak. -/
theorem open_transition_reseeds (prev prev2 : DialogState) (room : Option Room)
    (locations : List Location) (dflt : Option String) :
    (openTransition prev room locations dflt).isSubmitting = false
    ∧ (openTransition prev room locations dflt).values.name
      = (match room with | some r => r.name | none => "")
    ∧ (openTransition prev room locations dflt).values.locationId
      = (match room with
         | some r =>
           if r.locationId = "" then
             (match dflt with
              | some s =>
                if s = "" then (match locations with | [] => "" | loc :: _ => loc.id) else s
              | none => match locations with | [] => "" | loc :: _ => loc.id)
           else r.locationId
         | none =>
           (match dflt with
            | some s =>
              if s = "" then (match locations with | [] => "" | loc :: _ => loc.id) else s
            | none => match locations with | [] => "" | loc :: _ => loc.id))
    ∧ openTransition prev room locations dflt = openTransition prev2 room locations dflt := by
  refine ⟨rfl, ?_, ?_, rfl⟩
  · cases room with
    | none => rfl
    | some r =>
      show orElseStr r.name "" = r.name
      unfold orElseStr
      split <;> simp_all
  · cases room <;> cases dflt <;> cases locations <;>
      first
        | (simp [openTransition, formReset, orElseStr]; done)
        | (simp [openTransition, formReset, orElseStr]; split <;> simp_all)

/-- The onClose calls of one handler run: one call with true when the run
succeeds, none otherwise. -/
lemma closes_onSubmit (env : SubmitEnv) (d : RoomFormValues) :
    closesOf (onSubmit env d) = if submitSucceeds env then [true] else [] := by
  rcases env with ⟨ro, locs, u, a⟩
  cases locs with
  | nil => simp [onSubmit, closesOf, submitSucceeds]
  | cons l ls =>
    cases ro with
    | none =>
      cases a with
      | returns res => cases res <;> simp [onSubmit, closesOf, submitSucceeds]
      | throws => simp [onSubmit, closesOf, submitSucceeds]
    | some r =>
      cases u with
      | returns b => cases b <;> simp [onSubmit, closesOf, submitSucceeds]
      | throws => simp [onSubmit, closesOf, submitSucceeds]

/-- Every single user action calls onClose at most once: never, once with
true, or once with false. -/
lemma closes_actionEvents (room : Option Room) (locations : List Location) (a : UserAction) :
    closesOf (actionEvents room locations a) = []
    ∨ closesOf (actionEvents room locations a) = [true]
    ∨ closesOf (actionEvents room locations a) = [false] := by
  cases a with
  | submit d upd add =>
    cases h : roomFormSchema d with
    | ok v =>
      have e1 : actionEvents room locations (UserAction.submit d upd add)
          = onSubmit ⟨room, locations, upd, add⟩ v := by
        simp [actionEvents, handleSubmit, h]
      rw [e1, closes_onSubmit]
      by_cases hs : submitSucceeds ⟨room, locations, upd, add⟩ <;> simp [hs]
    | error e =>
      have e1 : actionEvents room locations (UserAction.submit d upd add) = [] := by
        simp [actionEvents, handleSubmit, h]
      rw [e1]; simp [closesOf]
  | cancel => simp [actionEvents, closesOf]
  | dismiss => simp [actionEvents, closesOf]

/-- The filterMap extracting onClose calls distributes over appending. -/
lemma closesOf_append (t s : List Event) : closesOf (t ++ s) = closesOf t ++ closesOf s := by
  simp [closesOf, List.filterMap_append]

/-- Over a whole open session, onClose is called exactly once when the
session ends and not at all while it stays open. -/
lemma session_close_count (room : Option Room) (locations : List Location)
    (acts : List UserAction) :
    (closesOf (sessionTrace room locations acts)).length
      = if sessionEnds room locations acts then 1 else 0 := by
  induction acts with
  | nil => simp [sessionTrace, sessionEnds, closesOf]
  | cons a rest ih =>
    rw [sessionTrace, sessionEnds]
    rcases closes_actionEvents room locations a with h | h | h <;>
      simp [h, closesOf_append, ih]

/-- No handler run calls onClose before the persistence call is issued. -/
lemma no_close_before_persist (env : SubmitEnv) (d : RoomFormValues) :
    anyCloseBeforePersist (onSubmit env d) = false := by
  rcases env with ⟨ro, locs, u, a⟩
  cases locs with
  | nil => simp [onSubmit, anyCloseBeforePersist]
  | cons l ls =>
    cases ro with
    | none =>
      cases a with
      | returns res => cases res <;> simp [onSubmit, anyCloseBeforePersist]
      | throws => simp [onSubmit, anyCloseBeforePersist]
    | some r =>
      cases u with
      | returns b => cases b <;> simp [onSubmit, anyCloseBeforePersist]
      | throws => simp [onSubmit, anyCloseBeforePersist]

/-- A handler run contains a close while the submitting flag is set exactly
when it succeeds: the successful close happens before the finally block
resets the flag. -/
lemma close_while_submitting_iff (env : SubmitEnv) (d : RoomFormValues) :
    existsCloseWhileSubmitting (onSubmit env d) = submitSucceeds env := by
  rcases env with ⟨ro, locs, u, a⟩
  cases locs with
  | nil => simp [onSubmit, existsCloseWhileSubmitting, anyCloseWhileSubmitting, submitSucceeds]
  | cons l ls =>
    cases ro with
    | none =>
      cases a with
      | returns res =>
        cases res <;>
          simp [onSubmit, existsCloseWhileSubmitting, anyCloseWhileSubmitting, submitSucceeds]
      | throws =>
        simp [onSubmit, existsCloseWhileSubmitting, anyCloseWhileSubmitting, submitSucceeds]
    | some r =>
      cases u with
      | returns b =>
        cases b <;>
          simp [onSubmit, existsCloseWhileSubmitting, anyCloseWhileSubmitting, submitSucceeds]
      | throws =>
        simp [onSubmit, existsCloseWhileSubmitting, anyCloseWhileSubmitting, submitSucceeds]

/-- C3 counterexample: in a successful edit submission, onClose true is
called while the submitting flag is still true — the flag is reset to
false only afterwards, by the finally block — so the claim that onClose is
never invoked while the submitting flag is true fails on the code. -/
theorem close_while_submitting_cex :
    onSubmit ⟨some ⟨"R1", "Old", "L1"⟩, [⟨"L1", "Lobby"⟩], ExtOutcome.returns true,
        ExtOutcome.returns none⟩ ⟨"New", "L1"⟩
      = [Event.setSubmitting true,
         Event.persist (PersistCall.update ⟨"R1", "New", "L1"⟩),
         Event.toast ⟨"Room Updated", "The room has been successfully updated.", ToastVariant.default⟩,
         Event.close true,
         Event.setSubmitting false]
    ∧ existsCloseWhileSubmitting
        (onSubmit ⟨some ⟨"R1", "Old", "L1"⟩, [⟨"L1", "Lobby"⟩], ExtOutcome.returns true,
            ExtOutcome.returns none⟩ ⟨"New", "L1"⟩) = true := by
  exact ⟨rfl, rfl⟩

/-- C3 amended: over an open session, onClose is called exactly once when
the session ends (with true after a successful mutation, false on cancel
or dismiss) and not at all otherwise; a handler run calls onClose exactly
when it succeeds, never before the persistence call is issued; but on a
successful run the close happens while the submitting flag is still true,
the flag being reset only afterwards in the finally block. -/
theorem onClose_discipline (room : Option Room) (locations : List Location)
    (acts : List UserAction) (env : SubmitEnv) (d : RoomFormValues) :
    (closesOf (sessionTrace room locations acts)).length
      = (if sessionEnds room locations acts then 1 else 0)
    ∧ closesOf (onSubmit env d) = (if submitSucceeds env then [true] else [])
    ∧ anyCloseBeforePersist (onSubmit env d) = false
    ∧ existsCloseWhileSubmitting (onSubmit env d) = submitSucceeds env :=
  ⟨session_close_count room locations acts, closes_onSubmit env d,
   no_close_before_persist env d, close_while_submitting_iff env d⟩

/-- Applying any sequence of selections drawn from a set of ids to a state
whose locationId is already in that set keeps the locationId in the set. -/
lemma runSelections_mem (ids : List String) (st : DialogState) (picks : List String)
    (hst : st.values.locationId ∈ ids) (hp : ∀ p ∈ picks, p ∈ ids) :
    (runSelections st picks).values.locationId ∈ ids := by
  induction picks generalizing st with
  | nil => simpa [runSelections] using hst
  | cons p rest ih =>
    have h1 : p ∈ ids := hp p (by simp)
    have h2 : ∀ q ∈ rest, q ∈ ids := fun q hq => hp q (by simp [hq])
    have e1 : runSelections st (p :: rest) = runSelections (selectLocation st p) rest := rfl
    rw [e1]
    exact ih (selectLocation st p) (by simpa [selectLocation] using h1) h2

/-- When the location list is nonempty and the room locationId and the
default, when non-empty, are ids from the list, the seeded locationId is
an id from the list. -/
lemma initial_locationId_mem (room : Option Room) (l : Location) (ls : List Location)
    (dflt : Option String)
    (hroom : match room with
             | some r => r.locationId = "" ∨ r.locationId ∈ locationIds (l :: ls)
             | none => True)
    (hdflt : match dflt with
             | some s => s = "" ∨ s ∈ locationIds (l :: ls)
             | none => True) :
    (initialState room (l :: ls) dflt).values.locationId ∈ locationIds (l :: ls) := by
  have hl : l.id ∈ locationIds (l :: ls) := by simp [locationIds]
  cases room with
  | none =>
    cases dflt with
    | none => simpa [initialState, formReset, orElseStr] using hl
    | some s =>
      by_cases hs : s = ""
      · simpa [initialState, formReset, orElseStr, hs] using hl
      · rcases hdflt with h | h
        · exact absurd h hs
        · simpa [initialState, formReset, orElseStr, hs] using h
  | some r =>
    by_cases hr : r.locationId = ""
    · cases dflt with
      | none => simpa [initialState, formReset, orElseStr, hr] using hl
      | some s =>
        by_cases hs : s = ""
        · simpa [initialState, formReset, orElseStr, hr, hs] using hl
        · rcases hdflt with h | h
          · exact absurd h hs
          · simpa [initialState, formReset, orElseStr, hr, hs] using h
    · rcases hroom with h | h
      · exact absurd h hr
      · simpa [initialState, formReset, orElseStr, hr] using h

/-- C8 counterexample: the claimed invariant fails on the code as stated:
opening the dialog with a room whose locationId is not among the supplied
locations seeds the form with that foreign id, although the list is
nonempty — initialization performs no membership validation. -/
theorem location_invariant_cex :
    ¬ (initialState (some ⟨"R1", "Old", "LX"⟩) [⟨"L1", "Lobby"⟩] none).values.locationId
        ∈ locationIds [⟨"L1", "Lobby"⟩] := by
  decide

/-- C8 amended: provided the room locationId and the default location id,
when non-empty, reference ids of the supplied nonempty location list, the
locationId held in the form — after seeding and after any sequence of
selections taken from the rendered options — references an id of the
list; and when the list is empty, submission is disallowed entirely: a
submit attempt performs no persistence call and no close. -/
theorem location_selection_invariant (room : Option Room) (l : Location) (ls : List Location)
    (dflt : Option String) (picks : List String) (ro : Option Room) (u : ExtOutcome Bool)
    (a : ExtOutcome (Option Room)) (d : RoomFormValues)
    (hroom : match room with
             | some r => r.locationId = "" ∨ r.locationId ∈ locationIds (l :: ls)
             | none => True)
    (hdflt : match dflt with
             | some s => s = "" ∨ s ∈ locationIds (l :: ls)
             | none => True)
    (hpicks : ∀ p ∈ picks, p ∈ locationIds (l :: ls)) :
    (runSelections (initialState room (l :: ls) dflt) picks).values.locationId
      ∈ locationIds (l :: ls)
    ∧ persistCalls (onSubmit ⟨ro, [], u, a⟩ d) = []
    ∧ closesOf (onSubmit ⟨ro, [], u, a⟩ d) = [] :=
  ⟨runSelections_mem (locationIds (l :: ls)) (initialState room (l :: ls) dflt) picks
      (initial_locationId_mem room l ls dflt hroom hdflt) hpicks,
   by simp [onSubmit, persistCalls],
   by simp [onSubmit, closesOf]⟩

/-- C8 amended, witnessed at a concrete input: an edit dialog for room R1
at location L1, list [L1], default L1, one selection of L1. -/
theorem location_selection_invariant_witness :
    (runSelections (initialState (some ⟨"R1", "Old", "L1"⟩) [⟨"L1", "Lobby"⟩] (some "L1"))
        ["L1"]).values.locationId ∈ locationIds [⟨"L1", "Lobby"⟩]
    ∧ persistCalls (onSubmit ⟨none, [], ExtOutcome.returns true, ExtOutcome.returns none⟩
        ⟨"Sunrise Suite", "L1"⟩) = []
    ∧ closesOf (onSubmit ⟨none, [], ExtOutcome.returns true, ExtOutcome.returns none⟩
        ⟨"Sunrise Suite", "L1"⟩) = [] :=
  location_selection_invariant (some ⟨"R1", "Old", "L1"⟩) ⟨"L1", "Lobby"⟩ [] (some "L1")
    ["L1"] none (ExtOutcome.returns true) (ExtOutcome.returns none) ⟨"Sunrise Suite", "L1"⟩
    (by decide) (by decide) (by decide)

end RoomFormDialog
